import Mathlib

/-!
Shallow embedding of the execution-session orchestrator of BelugaDB.  The
source of truth is the App component in src/unnamed/part_000 (the current
revision; src/unnamed/part_001 is an earlier revision of the same screens).
Each React state update is modelled as a pure function from the state it
reads to the state it writes.
-/

namespace BelugaDB

/-- Execution phase of one target, from the ExecutionStatus union type of the
frontend. -/
inductive ExecutionStatus where
  | waiting
  | success
  | error
  deriving DecidableEq

/-- Whether a phase is terminal, that is success or error. -/
def ExecutionStatus.isTerminal : ExecutionStatus → Bool
  | ExecutionStatus.waiting => false
  | ExecutionStatus.success => true
  | ExecutionStatus.error => true

/-- Row-producing result of a SELECT statement, from interface QueryResult in
src/unnamed/part_000. -/
structure QueryResult where
  headers : List String
  rows : List (List String)
  deriving DecidableEq

/-- Tagged outcome of one statement, from the ExecutionResult union type in
src/unnamed/part_000: a SELECT payload, a mutated-row count, or a failure
message. -/
inductive ExecutionResult where
  | select (payload : QueryResult)
  | mutation (affectedRows : Nat)
  | error (payload : String)
  deriving DecidableEq

/-- Per-target state, from interface DatabaseStatus in src/unnamed/part_000:
name, phase, optional error log and the accumulated statement results. -/
structure DatabaseStatus where
  name : String
  status : ExecutionStatus
  log : Option String
  results : List ExecutionResult
  deriving DecidableEq

/-- Session created when the ExecutionScreen mounts: one entry per dispatched
database name, each waiting with no log and no results, in dispatch order. -/
def initResults (databases : List String) : List DatabaseStatus :=
  databases.map (fun name =>
    { name := name, status := ExecutionStatus.waiting, log := Option.none,
      results := [] })

/-- Reducer run for each execution-status-update event in the ExecutionScreen:
replace the entry whose name matches the payload by the payload wholesale,
leaving every other entry alone (last write wins). -/
def applyStatusUpdate (prevResults : List DatabaseStatus)
    (payload : DatabaseStatus) : List DatabaseStatus :=
  prevResults.map (fun res => if res.name = payload.name then payload else res)

/-- Saved database connection, from interface Connection in the frontend. -/
structure Connection where
  id : String
  name : String
  host : String
  port : String
  user : String
  pass : String
  savePass : Bool
  deriving DecidableEq

/-- Result-persistence mode, from the SaveOption union type. -/
inductive SaveOption where
  | single
  | separate
  | none
  deriving DecidableEq

/-- Arguments of the invoke of execute_query_on_databases made by
handleExecute in src/unnamed/part_000. -/
structure EngineCall where
  connection : Connection
  databases : List String
  query : String
  saveOption : SaveOption
  stopOnError : Bool
  deriving DecidableEq

/-- Arguments of the invoke of add_query_to_history made by handleExecute in
src/unnamed/part_000. -/
structure HistoryCall where
  queryText : String
  connectionName : String
  status : String
  deriving DecidableEq

/-- Outcome of handleExecute: either rejected with only the operator
notification shown, or dispatched carrying the history append, the engine
call and the execution data that drives the switch to the execution
screen. -/
inductive DispatchResult where
  | rejected (message : String)
  | dispatched (history : HistoryCall) (engine : EngineCall)
      (executionData : String × List String)
  deriving DecidableEq

/-- The engine call recorded in a dispatch outcome, if any. -/
def DispatchResult.engineCall : DispatchResult → Option EngineCall
  | DispatchResult.rejected _ => Option.none
  | DispatchResult.dispatched _ e _ => Option.some e

/-- The history append recorded in a dispatch outcome, if any. -/
def DispatchResult.historyEntry : DispatchResult → Option HistoryCall
  | DispatchResult.rejected _ => Option.none
  | DispatchResult.dispatched h _ _ => Option.some h

/-- The handleExecute callback of the App component in src/unnamed/part_000,
lines 442 to 451: if no connection is selected, or no database is selected,
or the trimmed query is empty, show the notification and stop; otherwise
append to history, call the execution engine and move to the execution
screen. -/
def handleExecute (selectedConnection : Option Connection) (query : String)
    (databases : List String) (saveOption : SaveOption) (stopOnError : Bool) :
    DispatchResult :=
  match selectedConnection with
  | Option.none =>
      DispatchResult.rejected "Erro: Verifique a conexão, bancos de dados e a query."
  | Option.some conn =>
      if databases.length = 0 ∨ query.trim = "" then
        DispatchResult.rejected "Erro: Verifique a conexão, bancos de dados e a query."
      else
        DispatchResult.dispatched
          { queryText := query, connectionName := conn.name, status := "executed" }
          { connection := conn, databases := databases, query := query,
            saveOption := saveOption, stopOnError := stopOnError }
          (query, databases)

/-- Names of the targets whose phase is error, as collected into the Set
built by handleReturnSelectErrors in src/unnamed/part_000, line 455. -/
def errorDbNames (lastExecutionResults : List DatabaseStatus) : List String :=
  (lastExecutionResults.filter
      (fun r => r.status = ExecutionStatus.error)).map DatabaseStatus.name

/-- One entry of the databases state of the App component: id, name, checked
flag and the numeric reachability status. -/
structure DbEntry where
  id : String
  name : String
  checked : Bool
  status : Int
  deriving DecidableEq

/-- The handleReturnSelectErrors callback in src/unnamed/part_000, line 455:
when execution results exist, re-check exactly the database entries whose
name had an error phase and un-check the rest; with no results the entries
are left alone. -/
def handleReturnSelectErrors (lastExecutionResults : Option (List DatabaseStatus))
    (prevDbs : List DbEntry) : List DbEntry :=
  match lastExecutionResults with
  | Option.none => prevDbs
  | Option.some results =>
      prevDbs.map (fun db =>
        { db with checked := (errorDbNames results).contains db.name })

/-- The three screens of the App component. -/
inductive Screen where
  | connections
  | query
  | execution
  deriving DecidableEq

/-- Slice of the App state read or written by handleReturnSelectPrevious. -/
structure AppNavState where
  isReturnModalOpen : Bool
  screen : Screen
  databases : List DbEntry
  deriving DecidableEq

/-- The handleReturnSelectPrevious callback in src/unnamed/part_000, line
454: close the return modal and go back to the query screen; the databases
state is not touched. -/
def handleReturnSelectPrevious (st : AppNavState) : AppNavState :=
  { st with isReturnModalOpen := false, screen := Screen.query }

/-- Observable effects of one successful dispatch. -/
inductive DispatchEvent where
  | historyRecord
  | engineDispatch
  | screenChange
  | sessionInit
  | listenAttach
  deriving DecidableEq

/-- Order of effects of a successful dispatch in src/unnamed/part_000:
handleExecute (lines 447 to 450) invokes add_query_to_history, then invokes
execute_query_on_databases (which starts the engine), then switches the
screen to execution; only afterwards does the newly mounted ExecutionScreen
run its effect (line 370), which resets the session to waiting and attaches
the execution-status-update listener.  React runs a mount effect after the
commit that mounted the component, hence after handleExecute has returned. -/
def successfulDispatchTrace : List DispatchEvent :=
  [DispatchEvent.historyRecord, DispatchEvent.engineDispatch,
   DispatchEvent.screenChange, DispatchEvent.sessionInit,
   DispatchEvent.listenAttach]

/-- Default entry used with List.getD in statements about one position of the
session. -/
def dummyStatus : DatabaseStatus :=
  { name := "", status := ExecutionStatus.waiting, log := Option.none,
    results := [] }

/-- Sample connection used to instantiate theorems with hypotheses. -/
def sampleConnection : Connection :=
  { id := "1", name := "prod", host := "localhost", port := "5432",
    user := "u", pass := "p", savePass := false }

/-- Concrete one-target session whose target db1 is already in phase
error. -/
def errSession : List DatabaseStatus :=
  [{ name := "db1", status := ExecutionStatus.error, log := Option.some "timeout",
     results := [] }]

/-- The terminal snapshot already applied for db1 in errSession. -/
def errSnapshot : DatabaseStatus :=
  { name := "db1", status := ExecutionStatus.error, log := Option.some "timeout",
    results := [] }

/-- C1 counterexample: the status-update reducer is unconditional last write
wins, so a target already in the terminal phase error is regressed back to
waiting by a later applied update whose snapshot carries waiting. -/
theorem applyStatusUpdate_can_regress_terminal :
    ({ name := "db1", status := ExecutionStatus.error, log := Option.some "timeout",
       results := [] } : DatabaseStatus).status.isTerminal = true ∧
    (applyStatusUpdate
        [{ name := "db1", status := ExecutionStatus.error, log := Option.some "timeout",
           results := [] }]
        { name := "db1", status := ExecutionStatus.waiting, log := Option.none,
          results := [] }).map DatabaseStatus.status = [ExecutionStatus.waiting] :=
  ⟨rfl, rfl⟩

/-- C1 (amended): applyStatusUpdate overwrites the matching entry with exactly
the payload, so a later update that repeats the already-set terminal phase (in
particular a duplicate of the same terminal snapshot) leaves that phase
terminal and unflipped; only an update carrying a different phase can change
it. -/
theorem applyStatusUpdate_terminal_stable_under_duplicate
    (s : List DatabaseStatus) (p : DatabaseStatus) (i : Nat)
    (hi : i < s.length)
    (hname : (s.getD i dummyStatus).name = p.name)
    (hterm : (s.getD i dummyStatus).status.isTerminal = true)
    (hdup : p.status = (s.getD i dummyStatus).status) :
    ((applyStatusUpdate s p).getD i dummyStatus).status
        = (s.getD i dummyStatus).status ∧
    ((applyStatusUpdate s p).getD i dummyStatus).status.isTerminal = true := by
  have hlen : i < (applyStatusUpdate s p).length := by
    simpa [applyStatusUpdate] using hi
  have h1 : (applyStatusUpdate s p).getD i dummyStatus = p := by
    rw [List.getD_eq_getElem _ _ hlen]
    rw [List.getD_eq_getElem _ _ hi] at hname
    simp [applyStatusUpdate, List.getElem_map, hname]
  rw [h1, hdup]
  exact ⟨rfl, hterm⟩

/-- Witness for the amended C1 theorem at a concrete session: the duplicate
terminal snapshot for db1 keeps db1 in phase error. -/
theorem applyStatusUpdate_terminal_stable_under_duplicate_witness :
    ((applyStatusUpdate errSession errSnapshot).getD 0 dummyStatus).status
        = (errSession.getD 0 dummyStatus).status ∧
    ((applyStatusUpdate errSession errSnapshot).getD 0 dummyStatus).status.isTerminal
        = true :=
  applyStatusUpdate_terminal_stable_under_duplicate errSession errSnapshot 0
    (by decide) (by decide) (by decide) (by decide)

/-- C2: a status update whose payload name matches no entry of the session
leaves the session exactly unchanged (stale updates are discarded silently
and totally, nothing is thrown). -/
theorem applyStatusUpdate_stale_noop (s : List DatabaseStatus)
    (p : DatabaseStatus) (habsent : ∀ res ∈ s, res.name ≠ p.name) :
    applyStatusUpdate s p = s := by
  induction s with
  | nil => rfl
  | cons hd tl ih =>
      have h1 : hd.name ≠ p.name := habsent hd (List.mem_cons_self hd tl)
      have h2 : applyStatusUpdate tl p = tl :=
        ih (fun res hres => habsent res (List.mem_cons_of_mem hd hres))
      simp only [applyStatusUpdate, List.map_cons, if_neg h1]
      simp only [applyStatusUpdate] at h2
      rw [h2]

/-- Witness for C2: a stale update for db9 leaves a session that only knows
db1 unchanged. -/
theorem applyStatusUpdate_stale_noop_witness :
    applyStatusUpdate
        [{ name := "db1", status := ExecutionStatus.waiting, log := Option.none,
           results := [] }]
        { name := "db9", status := ExecutionStatus.success, log := Option.none,
          results := [] }
      = [{ name := "db1", status := ExecutionStatus.waiting, log := Option.none,
           results := [] }] :=
  applyStatusUpdate_stale_noop _ _ (by decide)

/-- C3: applying the same payload twice in succession yields the same session
as applying it once, for every session and every payload. -/
theorem applyStatusUpdate_idempotent (s : List DatabaseStatus)
    (p : DatabaseStatus) :
    applyStatusUpdate (applyStatusUpdate s p) p = applyStatusUpdate s p := by
  unfold applyStatusUpdate
  rw [List.map_map]
  apply List.map_congr_left
  intro res _
  by_cases h : res.name = p.name
  · simp [h]
  · simp [h]

/-- C4: the session created at dispatch carries exactly the dispatched names
in dispatch order, every entry waiting with no log and no statement
results. -/
theorem initResults_spec (T : List String) (hT : T ≠ []) :
    (initResults T).map DatabaseStatus.name = T ∧
    ∀ res ∈ initResults T,
      res.status = ExecutionStatus.waiting ∧ res.log = Option.none ∧
        res.results = [] := by
  constructor
  · have hcomp : (DatabaseStatus.name ∘ fun name : String =>
        ({ name := name, status := ExecutionStatus.waiting, log := Option.none,
           results := [] } : DatabaseStatus)) = id := rfl
    unfold initResults
    rw [List.map_map, hcomp, List.map_id]
  · intro res hres
    simp only [initResults, List.mem_map] at hres
    obtain ⟨n, _, rfl⟩ := hres
    exact ⟨rfl, rfl, rfl⟩

/-- Witness for C4 at the dispatched target list db1, db2. -/
theorem initResults_spec_witness :
    (initResults ["db1", "db2"]).map DatabaseStatus.name = ["db1", "db2"] ∧
    ∀ res ∈ initResults ["db1", "db2"],
      res.status = ExecutionStatus.waiting ∧ res.log = Option.none ∧
        res.results = [] :=
  initResults_spec ["db1", "db2"] (by decide)

/-- C5: an empty or whitespace-only script, or an empty target list, makes
handleExecute reject with the operator notification before anything external:
the outcome records no engine call and no history append, whatever the
connection and the flags. -/
theorem handleExecute_validation_rejects (conn : Option Connection)
    (query : String) (databases : List String) (saveOption : SaveOption)
    (stopOnError : Bool) (h : query.trim = "" ∨ databases = []) :
    handleExecute conn query databases saveOption stopOnError =
        DispatchResult.rejected "Erro: Verifique a conexão, bancos de dados e a query." ∧
    (handleExecute conn query databases saveOption stopOnError).engineCall
        = Option.none ∧
    (handleExecute conn query databases saveOption stopOnError).historyEntry
        = Option.none := by
  have hc : databases.length = 0 ∨ query.trim = "" := by
    rcases h with h | h
    · exact Or.inr h
    · exact Or.inl (by simp [h])
  cases conn with
  | none => exact ⟨rfl, rfl, rfl⟩
  | some c =>
      have he : handleExecute (Option.some c) query databases saveOption stopOnError =
          DispatchResult.rejected "Erro: Verifique a conexão, bancos de dados e a query." := by
        simp only [handleExecute]
        rw [if_pos hc]
      rw [he]
      exact ⟨rfl, rfl, rfl⟩

/-- Witness for C5: even with a connection selected and a non-blank script,
an empty target list is rejected with no engine call and no history
append. -/
theorem handleExecute_validation_rejects_witness :
    handleExecute (Option.some sampleConnection) "SELECT 1" [] SaveOption.single
        false =
      DispatchResult.rejected "Erro: Verifique a conexão, bancos de dados e a query." ∧
    (handleExecute (Option.some sampleConnection) "SELECT 1" [] SaveOption.single
        false).engineCall = Option.none ∧
    (handleExecute (Option.some sampleConnection) "SELECT 1" [] SaveOption.single
        false).historyEntry = Option.none :=
  handleExecute_validation_rejects _ _ _ _ _ (Or.inr rfl)

/-- C6: in the effect order of the source, the engine is started by
handleExecute strictly before the newly mounted ExecutionScreen attaches the
execution-status-update listener, so the listener is not yet attached when
the dispatch completes and an early completion can be missed. -/
theorem engineDispatch_precedes_listenAttach :
    successfulDispatchTrace.indexOf DispatchEvent.engineDispatch <
      successfulDispatchTrace.indexOf DispatchEvent.listenAttach := by
  decide

/-- C7: resolving with ErrorsOnly keeps every database entry in order and
checks exactly the entries whose name has phase error in the finished
session; when no target errored, nothing remains checked. -/
theorem handleReturnSelectErrors_spec (session : List DatabaseStatus)
    (dbs : List DbEntry) :
    (handleReturnSelectErrors (Option.some session) dbs).map DbEntry.name
        = dbs.map DbEntry.name ∧
    ∀ e ∈ handleReturnSelectErrors (Option.some session) dbs,
      (e.checked = true ↔
        ∃ r ∈ session, r.status = ExecutionStatus.error ∧ r.name = e.name) := by
  constructor
  · unfold handleReturnSelectErrors
    rw [List.map_map]
    apply List.map_congr_left
    intro db _
    rfl
  · intro e he
    simp only [handleReturnSelectErrors, List.mem_map] at he
    obtain ⟨db, _, rfl⟩ := he
    simp only
    rw [List.elem_iff]
    simp only [errorDbNames, List.mem_map, List.mem_filter, decide_eq_true_eq]
    constructor
    · rintro ⟨r, ⟨hr, hst⟩, hn⟩
      exact ⟨r, hr, hst, hn⟩
    · rintro ⟨r, hr, hst, hn⟩
      exact ⟨r, ⟨hr, hst⟩, hn⟩

/-- Witness for C7: with db1 errored and db2 successful, only the entry named
db1 is checked afterwards. -/
theorem handleReturnSelectErrors_spec_witness :
    (handleReturnSelectErrors (Option.some
        [{ name := "db1", status := ExecutionStatus.error, log := Option.some "t",
           results := [] },
         { name := "db2", status := ExecutionStatus.success, log := Option.none,
           results := [] }])
        [{ id := "db-0", name := "db1", checked := false, status := 0 },
         { id := "db-1", name := "db2", checked := true, status := 0 }]).map
        DbEntry.name
      = ["db1", "db2"] :=
  (handleReturnSelectErrors_spec _ _).1

/-- C8: handleReturnSelectPrevious leaves the database selection exactly as
it was before dispatch: the databases state, hence every checked flag, is
untouched. -/
theorem handleReturnSelectPrevious_frame (st : AppNavState) :
    (handleReturnSelectPrevious st).databases = st.databases := rfl

/-- C9: a status update changes no target name: the ordered list of names of
the session, hence its key set and its dispatch order, is invariant under
applyStatusUpdate. -/
theorem applyStatusUpdate_preserves_names (s : List DatabaseStatus)
    (p : DatabaseStatus) :
    (applyStatusUpdate s p).map DatabaseStatus.name
      = s.map DatabaseStatus.name := by
  unfold applyStatusUpdate
  rw [List.map_map]
  apply List.map_congr_left
  intro res _
  by_cases h : res.name = p.name
  · simp [h]
  · simp [h]

/-- C10: with no connection selected, handleExecute rejects with the operator
notification and records neither an engine call nor a history append,
whatever the script, the targets, the save option and the stop flag. -/
theorem handleExecute_no_connection_rejects (query : String)
    (databases : List String) (saveOption : SaveOption) (stopOnError : Bool) :
    handleExecute Option.none query databases saveOption stopOnError =
        DispatchResult.rejected "Erro: Verifique a conexão, bancos de dados e a query." ∧
    (handleExecute Option.none query databases saveOption stopOnError).engineCall
        = Option.none ∧
    (handleExecute Option.none query databases saveOption stopOnError).historyEntry
        = Option.none :=
  ⟨rfl, rfl, rfl⟩

end BelugaDB
